import Mathlib

/-!
Verification of `cgt_calc/currency_converter.py`: a shallow embedding of the
module's data model and operations, together with theorems settling the
specification's claims about it.

Modelling conventions:
* Python `decimal.Decimal` values are embedded as a signed integer coefficient
  together with a base-10 exponent (the value is `coeff * 10 ^ exp`), exactly
  the representation the Python library uses; special values (NaN, infinities,
  negative zero) never arise in this module and are left out.
* Python `datetime.date` is embedded as a year/month/day record with the
  calendar validity check performed by `date.fromisoformat`.
* Python `dict`s are embedded as association lists with Python's insertion
  semantics: assigning to an existing key updates it in place, a new key is
  appended at the end.
* Fallible operations return `Except`/`Option`; each distinct Python exception
  that can escape the module is a constructor of `CgtError`.
* I/O (the CSV file, the HTTP response) is passed in and out explicitly: file
  contents are lists of rows of cells, and the HTTP layer's answer for the
  requested month is an explicit `FetchResult` argument.
-/

set_option autoImplicit false

namespace CurrencyConverter

/-- Characters Python strips as whitespace around a numeric literal. -/
def isSpaceChar (c : Char) : Bool := c == ' ' || c == '\t' || c == '\n' || c == '\r'

/-- Value of a list of ASCII digit characters, most significant first. -/
def digitsToNat (cs : List Char) : Nat :=
  cs.foldl (fun a c => a * 10 + (c.toNat - 48)) 0

/-- Python `len(str(n))` for a nonnegative integer `n`. -/
def numDigits (n : Nat) : Nat := (Nat.repr n).length

/-- Python `str.upper()` (ASCII range suffices for this module). -/
def pyUpper (s : String) : String := ⟨s.data.map Char.toUpper⟩

/-- Python `str(x)` where `x` is either a `str` or the `None` object. -/
def pyStrOpt : Option String → String
  | none => "None"
  | some s => s

/-- A string of `n` zero characters. -/
def zerosStr (n : Nat) : String := ⟨List.replicate n '0'⟩

/-- Embedding of `decimal.Decimal`: the value is `coeff * 10 ^ exp`. -/
structure Decimal where
  coeff : Int
  exp : Int
  deriving DecidableEq, Repr

/-- Leading sign of a Python numeric literal. -/
def parseSign : List Char → Int × List Char
  | '-' :: cs => (-1, cs)
  | '+' :: cs => (1, cs)
  | cs => (1, cs)

/-- Optional exponent suffix of a Python numeric literal; `none` means the
suffix is malformed. -/
def parseExp : List Char → Option (Int × List Char)
  | 'e' :: rest =>
    let (esgn, rest1) := parseSign rest
    let eDigits := rest1.takeWhile Char.isDigit
    if eDigits.isEmpty then none
    else some (esgn * digitsToNat eDigits, rest1.dropWhile Char.isDigit)
  | 'E' :: rest =>
    let (esgn, rest1) := parseSign rest
    let eDigits := rest1.takeWhile Char.isDigit
    if eDigits.isEmpty then none
    else some (esgn * digitsToNat eDigits, rest1.dropWhile Char.isDigit)
  | cs => some (0, cs)

/-- The `Decimal(str)` constructor: sign, digits with an optional fraction,
optional exponent, surrounded by optional whitespace. Any other input makes
the constructor raise `InvalidOperation`, modelled as `none` (the module never
builds NaN or infinite values, so those literals are left out). -/
def Decimal.ofString (s : String) : Option Decimal :=
  let cs := ((s.data.dropWhile isSpaceChar).reverse.dropWhile isSpaceChar).reverse
  let (sgn, cs) := parseSign cs
  let intDigits := cs.takeWhile Char.isDigit
  let cs := cs.dropWhile Char.isDigit
  let (fracDigits, cs) :=
    match cs with
    | '.' :: rest => (rest.takeWhile Char.isDigit, rest.dropWhile Char.isDigit)
    | other => (([] : List Char), other)
  if intDigits.length + fracDigits.length = 0 then none
  else
    match parseExp cs with
    | none => none
    | some (e, rest) =>
      if rest.isEmpty then
        some ⟨sgn * digitsToNat (intDigits ++ fracDigits), e - fracDigits.length⟩
      else none

/-- Python `str(Decimal)`: positional notation when the exponent is at most
zero and the adjusted exponent is above -6, scientific notation otherwise. -/
def Decimal.toString (x : Decimal) : String :=
  let sign := if x.coeff < 0 then "-" else ""
  let ds := Nat.repr x.coeff.natAbs
  let leftdigits : Int := x.exp + ds.length
  if x.exp ≤ 0 ∧ -6 < leftdigits then
    if x.exp = 0 then sign ++ ds
    else if 0 < leftdigits then
      sign ++ ⟨ds.data.take leftdigits.toNat⟩ ++ "." ++ ⟨ds.data.drop leftdigits.toNat⟩
    else
      sign ++ "0." ++ zerosStr (-leftdigits).toNat ++ ds
  else
    let intpart : String := ⟨ds.data.take 1⟩
    let fracpart : String := if ds.length = 1 then "" else "." ++ ⟨ds.data.drop 1⟩
    let e : Int := leftdigits - 1
    sign ++ intpart ++ fracpart ++ "E" ++ (if 0 ≤ e then "+" else "") ++ Int.repr e

/-- Working precision of the default decimal context. -/
def PREC : Nat := 28

/-- The exact-quotient clean-up loop of Python decimal division: strip
trailing zeros while the exponent is below the ideal exponent. The fuel is
the exact number of iterations the loop can make. -/
def normalizeExact : Nat → Int → Int → Nat → Nat × Int
  | c, e, _, 0 => (c, e)
  | c, e, ideal, fuel + 1 =>
    if e < ideal ∧ c % 10 = 0 then normalizeExact (c / 10) (e + 1) ideal fuel
    else (c, e)

/-- The `_fix` step of Python decimal arithmetic restricted to what division
needs: round the coefficient to at most `PREC` digits, half-even, carrying
into the exponent (context exponent limits are far outside this module's
range and are not modelled). -/
def fixPrec (c : Nat) (e : Int) : Nat × Int :=
  let digits := numDigits c
  if digits ≤ PREC then (c, e)
  else
    let drop := digits - PREC
    let p := 10 ^ drop
    let q := c / p
    let r := c % p
    let half := 5 * 10 ^ (drop - 1)
    let q := if half < r ∨ (r = half ∧ q % 2 = 1) then q + 1 else q
    if PREC < numDigits q then (q / 10, e + drop + 1) else (q, e + drop)

/-- Python `Decimal.__truediv__` (default context): `none` when the divisor
is zero (Python raises `DivisionByZero`), otherwise the context-rounded
quotient following `_pydecimal`'s algorithm. -/
def Decimal.divD (a b : Decimal) : Option Decimal :=
  if b.coeff = 0 then none
  else if a.coeff = 0 then some ⟨0, a.exp - b.exp⟩
  else
    let sgn : Int := if (a.coeff < 0) = (b.coeff < 0) then 1 else -1
    let an := a.coeff.natAbs
    let bn := b.coeff.natAbs
    let shift : Int := (numDigits bn : Int) - (numDigits an : Int) + PREC + 1
    let ideal := a.exp - b.exp
    let e0 := ideal - shift
    let num := if 0 ≤ shift then an * 10 ^ shift.toNat else an
    let den := if 0 ≤ shift then bn else bn * 10 ^ (-shift).toNat
    let c0 := num / den
    let r0 := num % den
    let (c1, e1) :=
      if r0 ≠ 0 then (if c0 % 5 = 0 then c0 + 1 else c0, e0)
      else normalizeExact c0 e0 ideal (ideal - e0).toNat
    let (c2, e2) := fixPrec c1 e1
    some ⟨sgn * c2, e2⟩

/-- Embedding of `datetime.date`. -/
structure Date where
  year : Nat
  month : Nat
  day : Nat
  deriving DecidableEq, Repr

/-- Gregorian leap-year rule, as in `datetime`. -/
def isLeapYear (y : Nat) : Bool := y % 4 == 0 && (y % 100 != 0 || y % 400 == 0)

/-- Number of days in a month, as in `datetime`. -/
def daysInMonth (y m : Nat) : Nat :=
  if m = 2 then (if isLeapYear y then 29 else 28)
  else if m = 4 ∨ m = 6 ∨ m = 9 ∨ m = 11 then 30
  else 31

/-- Two-digit zero-padded decimal rendering, as `strftime` produces. -/
def pad2 (n : Nat) : String := if n < 10 then "0" ++ Nat.repr n else Nat.repr n

/-- Four-digit zero-padded decimal rendering, as `strftime`'s `%Y` produces. -/
def pad4 (n : Nat) : String :=
  if n < 10 then "000" ++ Nat.repr n
  else if n < 100 then "00" ++ Nat.repr n
  else if n < 1000 then "0" ++ Nat.repr n
  else Nat.repr n

/-- Python `str(date)`, i.e. `date.isoformat()`: `YYYY-MM-DD`. -/
def Date.isoformat (d : Date) : String :=
  pad4 d.year ++ "-" ++ pad2 d.month ++ "-" ++ pad2 d.day

/-- `datetime.date.fromisoformat` on the canonical `YYYY-MM-DD` layout,
including the calendar validity check; `none` models `ValueError`. -/
def Date.fromisoformat (s : String) : Option Date :=
  match s.data with
  | [y1, y2, y3, y4, h1, m1, m2, h2, d1, d2] =>
    if y1.isDigit && y2.isDigit && y3.isDigit && y4.isDigit && h1 == '-'
        && m1.isDigit && m2.isDigit && h2 == '-' && d1.isDigit && d2.isDigit then
      let y := digitsToNat [y1, y2, y3, y4]
      let m := digitsToNat [m1, m2]
      let d := digitsToNat [d1, d2]
      if 1 ≤ y ∧ y ≤ 9999 ∧ 1 ≤ m ∧ m ≤ 12 ∧ 1 ≤ d ∧ d ≤ daysInMonth y m then
        some ⟨y, m, d⟩
      else none
    else none
  | _ => none

/-- Lookup in a Python dict embedded as an association list. -/
def dictGet {κ α : Type} [DecidableEq κ] : List (κ × α) → κ → Option α
  | [], _ => none
  | (k, v) :: rest, k2 => if k = k2 then some v else dictGet rest k2

/-- Assignment `m[k] = v` on a Python dict embedded as an association list:
an existing key keeps its position and gets the new value, a new key is
appended at the end. -/
def dictInsert {κ α : Type} [DecidableEq κ] : List (κ × α) → κ → α → List (κ × α)
  | [], k, v => [(k, v)]
  | (k1, v1) :: rest, k, v =>
    if k1 = k then (k1, v) :: rest else (k1, v1) :: dictInsert rest k v

/-- Boolean total order on strings used to model Python `sorted`. -/
def strLeB (a b : String) : Bool := compare a b != Ordering.gt

/-- Ordered insertion for `sortStrs`. -/
def insSorted (s : String) : List String → List String
  | [] => [s]
  | t :: ts => if strLeB s t then s :: t :: ts else t :: insSorted s ts

/-- Python `sorted` on a list of strings (insertion sort; sortedness is all
the module's comparison uses). -/
def sortStrs (l : List String) : List String := l.foldr insSorted []

/-- Per-month rate mapping: currency code → rate. -/
abbrev Rates := List (String × Decimal)

/-- The converter's cache: date → (currency code → rate). -/
abbrev Cache := List (Date × Rates)

/-- `EXCHANGE_RATES_HEADER` from the module. -/
def EXCHANGE_RATES_HEADER : List String := ["month", "currency", "rate"]

/-- `NEW_ENDPOINT_FROM_YEAR` from the module. -/
def NEW_ENDPOINT_FROM_YEAR : Nat := 2021

/-- Each Python exception that can escape the module, with the payload the
raise site supplies. `ParsingError` and `ExchangeRateMissingError` come from
`cgt_calc.exceptions`; the rest are built-in Python exceptions. -/
inductive CgtError where
  /-- `ParsingError(location, message)`. -/
  | parsingError (loc : String) (msg : String)
  /-- `ExchangeRateMissingError(currency, date)`. -/
  | exchangeRateMissing (currency : String) (date : Date)
  /-- `decimal.InvalidOperation` from `Decimal(s)` on a malformed string. -/
  | invalidOperation (s : String)
  /-- `StopIteration` from `next()` on an exhausted reader. -/
  | stopIteration
  /-- `TypeError`, e.g. from passing the `None` object where a `str` is due. -/
  | typeError
  /-- `ValueError` from `date.fromisoformat` on a malformed date string. -/
  | valueError
  /-- `KeyError` from a failed dict lookup. -/
  | keyError
  /-- `decimal.DivisionByZero`. -/
  | divisionByZero
  /-- A short row would store the `None` object as a dict key; the module's
  cache then no longer maps strings to rates. No claim concerns this corner,
  so it is surfaced as a distinct outcome instead of widening the key type. -/
  | noneCurrencyKey
  deriving DecidableEq, Repr

/-- Python `repr` of a list of strings, as interpolated into error text. -/
def pyListRepr (l : List String) : String :=
  "[" ++ String.intercalate ", " (l.map fun s => "\x27" ++ s ++ "\x27") ++ "]"

/-- The message of the `ParsingError` raised for a row whose column set does
not match the header: `invalid columns {keys}, they should be {header}`. -/
def invalidColumnsMsg (keys : List String) : String :=
  "invalid columns dict_keys(" ++ pyListRepr keys ++ "), they should be "
    ++ pyListRepr EXCHANGE_RATES_HEADER

/-- Key view of a `csv.DictReader` record: the (first-occurrence-deduplicated)
field names; a row longer than the header would add the `None` rest-key, on
which Python's `sorted` raises `TypeError`, signalled here by `none`. -/
def rowKeys (fieldnames row : List String) : Option (List String) :=
  if row.length ≤ fieldnames.length then some fieldnames.dedup else none

/-- Value view of a `csv.DictReader` record: `record[key]` is the row cell at
the key's field position, or the `None` rest-value (`none` here) when the row
is too short to reach that position. -/
def rowVal (fieldnames row : List String) (key : String) : Option String := do
  let i ← List.indexOf? key fieldnames
  row.get? i

/-- One iteration of the read loop of `_read_exchange_rates_file`: the column
check against `EXCHANGE_RATES_HEADER`, then `date.fromisoformat(line["month"])`,
then `Decimal(line["rate"])`, then the currency key, in the source's
evaluation order. On success it yields the parsed triple to insert. -/
def rowResult (file : String) (fieldnames row : List String) :
    Except CgtError (Date × String × Decimal) :=
  match rowKeys fieldnames row with
  | none => .error .typeError
  | some ks =>
    if sortStrs EXCHANGE_RATES_HEADER = sortStrs ks then
      match rowVal fieldnames row "month" with
      | none => .error .typeError
      | some ms =>
        match Date.fromisoformat ms with
        | none => .error .valueError
        | some d =>
          match rowVal fieldnames row "rate" with
          | none => .error .typeError
          | some rs =>
            match Decimal.ofString rs with
            | none => .error (.invalidOperation rs)
            | some rate =>
              match rowVal fieldnames row "currency" with
              | none => .error .noneCurrencyKey
              | some cur => .ok (d, cur, rate)
    else .error (.parsingError file (invalidColumnsMsg ks))

/-- `cache[date][currency] = rate` on a `defaultdict(dict)`. -/
def cacheInsert (c : Cache) (d : Date) (cur : String) (rate : Decimal) : Cache :=
  dictInsert c d (dictInsert ((dictGet c d).getD []) cur rate)

/-- The read loop of `_read_exchange_rates_file` over the rows remaining
after the skipped one. -/
def processRows (file : String) (fieldnames : List String) :
    List (List String) → Cache → Except CgtError Cache
  | [], c => .ok c
  | r :: rs, c =>
    match rowResult file fieldnames r with
    | .error e => .error e
    | .ok (d, cur, rate) => processRows file fieldnames rs (cacheInsert c d cur rate)

/-- `_read_exchange_rates_file`. The second argument is the content of the
file at the path as rows of cells: `none` when the path does not name an
existing regular file. A `csv.DictReader` takes the first row as its field
names; the following `next(csv_reader)` consumes the first data row (raising
`StopIteration` when there is none), and the loop runs over the rest. -/
def read_exchange_rates_file :
    Option String → Option (List (List String)) → Except CgtError Cache
  | none, _ => .ok []
  | some _, none => .ok []
  | some p, some lines =>
    match lines with
    | [] => .error .stopIteration
    | [_] => .error .stopIteration
    | fieldnames :: _first :: rest => processRows p fieldnames rest []

/-- The rows `_write_exchange_rates_file` hands to `csv.writer`: the header,
then one row per (month, currency) pair in the table's iteration order, the
month as `str(date)` and the rate as `str(rate)`. -/
def writeRows (data : Cache) : List (List String) :=
  EXCHANGE_RATES_HEADER ::
    (data.map fun dr => dr.2.map fun sr => [Date.isoformat dr.1, sr.1, sr.2.toString]).flatten

/-- `_write_exchange_rates_file` as a transformation of the persisted file's
contents: a `None` path is a no-op, otherwise the file is rewritten in full. -/
def write_exchange_rates_file (path : Option String) (data : Cache)
    (old : Option (List (List String))) : Option (List (List String)) :=
  match path with
  | none => old
  | some _ => some (writeRows data)

/-- The per-year crawl-slug table `crawl_slugs` of `_query_hmrc_api`;
`none` models the `KeyError` a missing year raises. -/
def crawl_slugs (y : Nat) : Option String :=
  if y = 2015 then some "20220504145914"
  else if y = 2016 then some "20220505063703"
  else if y = 2017 then some "20220409150415"
  else if y = 2018 then some "20220409144223"
  else if y = 2019 then some "20220409162528"
  else if y = 2020 then some "20220505131656"
  else none

/-- `date.strftime("%m%y")`. -/
def mmyyToken (d : Date) : String := pad2 d.month ++ pad2 (d.year % 100)

/-- `date.strftime("%Y-%m")`. -/
def yyyymmToken (d : Date) : String := pad4 d.year ++ "-" ++ pad2 d.month

/-- The endpoint-selection prefix of `_query_hmrc_api`: the formatted month
token and the URL for the date, chosen by year. Pure and I/O-free; `none`
models the `KeyError` of `crawl_slugs[date.year]` for a pre-2015 year. -/
def endpointParts (d : Date) : Option (String × String) :=
  if d.year < NEW_ENDPOINT_FROM_YEAR then
    match crawl_slugs d.year with
    | none => none
    | some slug =>
      let month_str := mmyyToken d
      some (month_str,
        "https://webarchive.nationalarchives.gov.uk/ukgwa/" ++ slug ++ "mp_/"
          ++ "http://www.hmrc.gov.uk/softwaredevelopers/rates/"
          ++ "exrates-monthly-" ++ month_str ++ ".xml")
  else
    let month_str := yyyymmToken d
    some (month_str,
      "https://www.trade-tariff.service.gov.uk/api/v2/"
        ++ "exchange_rates/files/monthly_xml_" ++ month_str ++ ".xml")

/-- The URL `_query_hmrc_api` fetches for a date. -/
def endpointUrl (d : Date) : Option String := (endpointParts d).map Prod.snd

/-- One row element of the response document: `row.find("currencyCode")` and
`row.find("rateNew")` each yield the element's text or the `None` object. -/
structure XmlRow where
  currencyCode : Option String
  rateNew : Option String
  deriving DecidableEq, Repr

/-- What `session.get` came back with: a raised transport-level exception
(connection error, timeout, DNS failure), or a response with a status code
and a parsed body. -/
inductive FetchResult where
  | transportError (err : String)
  | response (status : Nat) (body : List XmlRow)
  deriving DecidableEq, Repr

/-- The message wrapped around a transport-level failure, built exactly as
`_query_hmrc_api` formats it (`str(None)` for a missing file path). -/
def transportMsg (month_str url : String) (path : Option String) (err : String) :
    String :=
  "Error while fetching HMRC exchange rates for the month " ++ month_str ++ " "
    ++ "from the following url: " ++ url ++ ".\n"
    ++ "Either try again or if you\x27re sure about the rates you can "
    ++ "add them manually in " ++ pyStrOpt path ++ ".\n"
    ++ "The error was: " ++ err ++ "\n"

/-- Python `None == x` is `False` whenever `x` is a `str`. -/
def pyNoneEqStr (_ : String) : Bool := false

/-- Python `None == x` is `False` whenever `x` is a `Decimal`. -/
def pyNoneEqDecimal (_ : Decimal) : Bool := false

/-- The guard `None in rates or None in rates.values()` of `_query_hmrc_api`,
written as Python evaluates it: membership of the `None` object tests
`None == k` / `None == v` against every key and value. Keys and values have
passed through `str()` and `Decimal()`, so neither test can succeed. -/
def noneInRates (rates : Rates) : Bool :=
  rates.any (fun kv => pyNoneEqStr kv.1) || rates.any (fun kv => pyNoneEqDecimal kv.2)

/-- The dict comprehension of `_query_hmrc_api`: for each row, the key is
`str(row.find("currencyCode").text).upper()` and the value is
`Decimal(str(row.find("rateNew").text))`; a malformed rate raises
`InvalidOperation` out of the comprehension. -/
def buildRates : List XmlRow → Rates → Except CgtError Rates
  | [], acc => .ok acc
  | row :: rest, acc =>
    let key := pyUpper (pyStrOpt row.currencyCode)
    match Decimal.ofString (pyStrOpt row.rateNew) with
    | none => .error (.invalidOperation (pyStrOpt row.rateNew))
    | some r => buildRates rest (dictInsert acc key r)

/-- The converter's mutable state: the configured path, the in-memory cache,
and the contents of the persisted file on disk (if any). -/
structure ConvState where
  exchange_rates_file : Option String
  cache : Cache
  persisted : Option (List (List String))
  deriving DecidableEq, Repr

/-- `_query_hmrc_api(date)`. The network's answer for the month is the
explicit `fr` argument. Returns the outcome paired with the state after the
call: every raise happens before the cache insert and file write, so every
error leaves the state exactly as it was. -/
def query_hmrc_api (st : ConvState) (d : Date) (fr : FetchResult) :
    Except CgtError Unit × ConvState :=
  match endpointParts d with
  | none => (.error .keyError, st)
  | some (month_str, url) =>
    match fr with
    | .transportError err =>
      (.error (.parsingError url
        (transportMsg month_str url st.exchange_rates_file err)), st)
    | .response status body =>
      if status < 400 then
        match buildRates body [] with
        | .error e => (.error e, st)
        | .ok rates =>
          if noneInRates rates then
            (.error (.parsingError url "HMRC API produced invalid/unknown data"), st)
          else
            let cache1 := dictInsert st.cache d rates
            (.ok (), { st with
              cache := cache1,
              persisted :=
                write_exchange_rates_file st.exchange_rates_file cache1 st.persisted })
      else
        (.error (.parsingError url
          ("HMRC API returned a " ++ Nat.repr status ++ " response")), st)

/-- `currency_to_gbp_rate(currency, date)`: fetch on a cache miss, then fail
with `ExchangeRateMissingError` when the currency is absent for the date,
else return the stored rate. -/
def currency_to_gbp_rate (st : ConvState) (currency : String) (d : Date)
    (fr : FetchResult) : Except CgtError Decimal × ConvState :=
  let (r0, st1) :=
    if (dictGet st.cache d).isSome then (Except.ok (), st)
    else query_hmrc_api st d fr
  match r0 with
  | .error e => (.error e, st1)
  | .ok () =>
    match dictGet st1.cache d with
    | none => (.error .keyError, st1)
    | some rates =>
      match dictGet rates currency with
      | none => (.error (.exchangeRateMissing currency d), st1)
      | some rate => (.ok rate, st1)

/-- `to_gbp(amount, currency, date)`: the literal `"GBP"` short-circuits,
anything else is divided by `currency_to_gbp_rate(currency.upper(), date)`. -/
def to_gbp (st : ConvState) (amount : Decimal) (currency : String) (d : Date)
    (fr : FetchResult) : Except CgtError Decimal × ConvState :=
  if currency = "GBP" then (.ok amount, st)
  else
    match currency_to_gbp_rate st (pyUpper currency) d fr with
    | (.error e, st1) => (.error e, st1)
    | (.ok rate, st1) =>
      match amount.divD rate with
      | none => (.error .divisionByZero, st1)
      | some q => (.ok q, st1)

/-- Substring containment, the reading of "locator contains token". -/
def strContainsSub (hay needle : String) : Prop := needle.data <:+: hay.data

instance decStrContainsSub (hay needle : String) : Decidable (strContainsSub hay needle) :=
  inferInstanceAs (Decidable (needle.data <:+: hay.data))

/-- The archive host of the pre-2021 source. -/
def archiveHost : String := "webarchive.nationalarchives.gov.uk"

/-- The host of the current (2021 and later) source. -/
def tariffHost : String := "www.trade-tariff.service.gov.uk"

/-- Example month key used by concrete instances below. -/
def exDate : Date := ⟨2021, 1, 1⟩

/-- Example one-entry rate table. -/
def exTable : Cache := [(exDate, [("USD", ⟨135, -2⟩)])]

/-- Example converter state with a configured path and an empty cache. -/
def st0 : ConvState := ⟨some "rates.csv", [], none⟩

/-- Example converter state whose cache already holds `exDate`. -/
def st5 : ConvState := ⟨some "rates.csv", [(exDate, [("USD", ⟨135, -2⟩)])], none⟩

/-- Example converter state holding a rate for the reference currency. -/
def st8 : ConvState := ⟨some "rates.csv", [(exDate, [("GBP", ⟨2, 0⟩)])], none⟩

/-- Example converter state holding a USD rate of 2. -/
def st8b : ConvState := ⟨some "rates.csv", [(exDate, [("USD", ⟨2, 0⟩)])], none⟩

/-- The URL the current endpoint yields for January 2021. -/
def tariff2021url : String :=
  "https://www.trade-tariff.service.gov.uk/api/v2/"
    ++ "exchange_rates/files/monthly_xml_2021-01.xml"

theorem strContainsSub_extend_right (a b m : String) (h : strContainsSub a m) :
    strContainsSub (a ++ b) m := by
  unfold strContainsSub at *
  rw [String.data_append]
  exact h.trans (by simpa using List.infix_append [] a.data b.data)

theorem strContainsSub_middle (p m s : String) : strContainsSub (p ++ m ++ s) m := by
  unfold strContainsSub
  rw [String.data_append, String.data_append]
  exact List.infix_append p.data m.data s.data

theorem crawl_slugs_total (y : Nat) (h1 : 2015 ≤ y) (h2 : y < 2021) :
    ∃ s, crawl_slugs y = some s := by
  interval_cases y <;> exact ⟨_, rfl⟩

theorem archive_url_shape (d : Date) (slug : String)
    (h : crawl_slugs d.year = some slug) (h2 : d.year < 2021) :
    endpointUrl d = some
      ("https://webarchive.nationalarchives.gov.uk/ukgwa/" ++ slug ++ "mp_/"
        ++ "http://www.hmrc.gov.uk/softwaredevelopers/rates/"
        ++ "exrates-monthly-" ++ mmyyToken d ++ ".xml") := by
  unfold endpointUrl endpointParts NEW_ENDPOINT_FROM_YEAR
  rw [if_pos h2, h]
  rfl

theorem current_url_shape (d : Date) (h2 : ¬ d.year < 2021) :
    endpointUrl d = some
      ("https://www.trade-tariff.service.gov.uk/api/v2/"
        ++ "exchange_rates/files/monthly_xml_" ++ yyyymmToken d ++ ".xml") := by
  unfold endpointUrl endpointParts NEW_ENDPOINT_FROM_YEAR
  rw [if_neg h2]
  rfl

theorem processRows_append_error (p : String) (hdr : List String)
    (pre : List (List String)) (bad : List String) (rest : List (List String))
    (e : CgtError)
    (hpre : ∀ r ∈ pre, ∃ v, rowResult p hdr r = .ok v)
    (hbad : rowResult p hdr bad = .error e) :
    ∀ c, processRows p hdr (pre ++ bad :: rest) c = .error e := by
  induction pre with
  | nil => intro c; simp only [List.nil_append, processRows, hbad]
  | cons r rs ih =>
    intro c
    obtain ⟨⟨d, cur, rate⟩, hv⟩ := hpre r (List.mem_cons_self ..)
    simp only [List.cons_append, processRows, hv]
    exact ih (fun r2 hr2 => hpre r2 (List.mem_cons_of_mem _ hr2)) _

/-- C1 (code bug): the spec's round-trip invariant fails on the code. Writing
the one-entry table `exTable` produces the header plus one data row; loading
that file back drops the data row, because `_read_exchange_rates_file` calls
`next()` once more after `csv.DictReader` has already consumed the header
(its comment says "skip the header"), so the result is the empty table. An
empty table round-trips even worse: its written file is header-only and
loading it raises `StopIteration`. -/
theorem c1_round_trip_drops_first_row :
    read_exchange_rates_file (some "rates.csv") (some (writeRows exTable)) = .ok []
    ∧ ([] : Cache) ≠ exTable
    ∧ read_exchange_rates_file (some "rates.csv") (some (writeRows [])) =
        .error .stopIteration :=
  ⟨rfl, by decide, rfl⟩

/-- C2 (code bug): a fetched row with a missing currency-code field does not
make the fetch fail. `str(None)` is the string `"None"`, so the row is
accepted under the key `"NONE"` and the guard `None in rates` can never fire;
the month's mapping (and the persisted file) end up holding the sentinel key.
A missing or unparseable rate field raises `decimal.InvalidOperation` from
the comprehension, not the `ParsingError` the claim requires. -/
theorem c2_sentinel_accepted :
    (query_hmrc_api st0 exDate (.response 200 [⟨none, some "1.35"⟩])).1 = .ok ()
    ∧ dictGet (query_hmrc_api st0 exDate
        (.response 200 [⟨none, some "1.35"⟩])).2.cache exDate
        = some [("NONE", ⟨135, -2⟩)]
    ∧ (query_hmrc_api st0 exDate (.response 200 [⟨some "usd", none⟩])).1
        = .error (.invalidOperation "None") :=
  ⟨rfl, rfl, rfl⟩

/-- C3 counterexample: a file whose header has the `rat` typo and whose only
data row therefore carries the mismatched column set loads successfully as
the empty table — no `ParsingError` — because the unconditional `next()`
consumes that first data row without validating it. -/
theorem c3_first_row_unvalidated :
    read_exchange_rates_file (some "rates.csv")
        (some [["month", "currency", "rat"], ["2021-01-01", "USD", "1.3"]]) = .ok []
    ∧ sortStrs EXCHANGE_RATES_HEADER ≠ sortStrs ["month", "currency", "rat"] :=
  ⟨rfl, by decide⟩

/-- C3 (amended): for every data row from the second one onward, a column set
differing from the expected header raises `ParsingError` carrying the file
path and the malformed row's column keys, provided the validated rows before
it parse; the first data row after the header is consumed unvalidated. -/
theorem c3_mismatch_after_first_row (p : String) (hdr first bad : List String)
    (pre rest : List (List String)) (ks : List String)
    (hpre : ∀ r ∈ pre, ∃ v, rowResult p hdr r = .ok v)
    (hks : rowKeys hdr bad = some ks)
    (hbad : sortStrs EXCHANGE_RATES_HEADER ≠ sortStrs ks) :
    read_exchange_rates_file (some p) (some (hdr :: first :: (pre ++ bad :: rest)))
      = .error (.parsingError p (invalidColumnsMsg ks)) := by
  have hb : rowResult p hdr bad = .error (.parsingError p (invalidColumnsMsg ks)) := by
    unfold rowResult
    rw [hks]
    simp only [if_neg hbad]
  exact processRows_append_error p hdr pre bad rest _ hpre hb []

/-- Witness for C3's amended theorem at a concrete file. -/
theorem c3_witness :
    read_exchange_rates_file (some "rates.csv")
        (some [["month", "currency", "rat"], ["a", "b", "c"], ["2021-01-01", "USD", "1.3"]])
      = .error (.parsingError "rates.csv"
          (invalidColumnsMsg ["month", "currency", "rat"])) :=
  c3_mismatch_after_first_row "rates.csv" ["month", "currency", "rat"] ["a", "b", "c"]
    ["2021-01-01", "USD", "1.3"] [] [] ["month", "currency", "rat"]
    (by simp) (by decide) (by decide)

/-- C4 (confirmed): a transport-level failure of the fetch, or a non-success
status, yields a `ParsingError` — carrying the locator, and for the transport
case the formatted month token, the manual-edit hint and the underlying cause
— and the returned state is exactly the input state: no cache insertion and
no file write happen on these paths. -/
theorem c4_fetch_failure_leaves_state (st : ConvState) (d : Date)
    (month_str url : String) (hurl : endpointParts d = some (month_str, url)) :
    (∀ err, query_hmrc_api st d (.transportError err)
        = (.error (.parsingError url
            (transportMsg month_str url st.exchange_rates_file err)), st))
    ∧ ∀ status body, 400 ≤ status →
        query_hmrc_api st d (.response status body)
          = (.error (.parsingError url
              ("HMRC API returned a " ++ Nat.repr status ++ " response")), st) := by
  constructor
  · intro err
    unfold query_hmrc_api
    rw [hurl]
  · intro status body h
    unfold query_hmrc_api
    rw [hurl]
    simp only [if_neg (Nat.not_lt.mpr h)]

/-- Witness for C4 at a concrete state, date, timeout and 503 status. -/
theorem c4_witness :
    query_hmrc_api st0 exDate (.transportError "timeout")
      = (.error (.parsingError tariff2021url
          (transportMsg "2021-01" tariff2021url (some "rates.csv") "timeout")), st0)
    ∧ query_hmrc_api st0 exDate (.response 503 [])
      = (.error (.parsingError tariff2021url
          ("HMRC API returned a " ++ Nat.repr 503 ++ " response")), st0) :=
  ⟨(c4_fetch_failure_leaves_state st0 exDate "2021-01" tariff2021url rfl).1 "timeout",
   (c4_fetch_failure_leaves_state st0 exDate "2021-01" tariff2021url rfl).2 503 [] (by decide)⟩

/-- C5 (confirmed): once the month resolves — whether the date was already
cached or a fetch just succeeded — a currency whose uppercased code is absent
from that month's mapping makes `currency_to_gbp_rate` fail with
`ExchangeRateMissingError` carrying that currency and date, while every
currency present in the same month's mapping still resolves to its rate. -/
theorem c5_missing_currency (st : ConvState) (c : String) (d : Date)
    (fr : FetchResult) :
    (∀ rates, dictGet st.cache d = some rates →
      (dictGet rates (pyUpper c) = none →
        currency_to_gbp_rate st (pyUpper c) d fr
          = (.error (.exchangeRateMissing (pyUpper c) d), st))
      ∧ ∀ c2 r, dictGet rates c2 = some r →
          currency_to_gbp_rate st c2 d fr = (.ok r, st))
    ∧ (∀ st1, dictGet st.cache d = none →
        query_hmrc_api st d fr = (.ok (), st1) →
        ∀ rates, dictGet st1.cache d = some rates →
          (dictGet rates (pyUpper c) = none →
            currency_to_gbp_rate st (pyUpper c) d fr
              = (.error (.exchangeRateMissing (pyUpper c) d), st1))
          ∧ ∀ c2 r, dictGet rates c2 = some r →
              currency_to_gbp_rate st c2 d fr = (.ok r, st1)) := by
  constructor
  · intro rates hr
    constructor
    · intro hmiss
      simp only [currency_to_gbp_rate, hr, Option.isSome_some, if_true, hmiss]
    · intro c2 r h2
      simp only [currency_to_gbp_rate, hr, Option.isSome_some, if_true, h2]
  · intro st1 hc hq rates hr1
    constructor
    · intro hmiss
      simp only [currency_to_gbp_rate, hc, Option.isSome_none, Bool.false_eq_true,
        if_false, hq, hr1, hmiss]
    · intro c2 r h2
      simp only [currency_to_gbp_rate, hc, Option.isSome_none, Bool.false_eq_true,
        if_false, hq, hr1, h2]

/-- Witness for C5: in a state caching USD for the month, `"eur"` uppercased
is missing and fails with `ExchangeRateMissingError`, while USD resolves. -/
theorem c5_witness :
    currency_to_gbp_rate st5 (pyUpper "eur") exDate (.transportError "x")
      = (.error (.exchangeRateMissing (pyUpper "eur") exDate), st5)
    ∧ currency_to_gbp_rate st5 "USD" exDate (.transportError "x")
      = (.ok ⟨135, -2⟩, st5) :=
  ⟨((c5_missing_currency st5 "eur" exDate (.transportError "x")).1 _ rfl).1 (by decide),
   ((c5_missing_currency st5 "eur" exDate (.transportError "x")).1 _ rfl).2
     "USD" ⟨135, -2⟩ rfl⟩

/-- C6 counterexample: the claim's general clause — every date with year
below 2021 uses the archive URL — fails for 2014: the crawl-slug table has no
entry for years before 2015, so `crawl_slugs[date.year]` raises `KeyError`
and no locator (archive or otherwise) is produced. -/
theorem c6_pre2015_no_locator :
    endpointUrl ⟨2014, 6, 1⟩ = none ∧ (⟨2014, 6, 1⟩ : Date).year < 2021 :=
  ⟨rfl, by decide⟩

set_option maxRecDepth 20000 in
/-- C6 (amended): 2016-12-01 maps to a locator containing crawl slug
`20220505063703` and month token `1216` on the archive host; 2021-01-01 maps
to a locator containing month token `2021-01` on the trade-tariff host and
not the archive host; and in general dates with year in 2015–2020 use the
archive URL with an `MMYY` token, while dates with year 2021 or later use the
current endpoint with a `YYYY-MM` token (years before 2015 fail the slug
lookup instead of producing an archive locator). -/
theorem c6_endpoint_selection :
    (∃ u, endpointUrl ⟨2016, 12, 1⟩ = some u ∧ strContainsSub u "20220505063703"
      ∧ strContainsSub u "1216" ∧ strContainsSub u archiveHost)
    ∧ (∃ u, endpointUrl ⟨2021, 1, 1⟩ = some u ∧ strContainsSub u "2021-01"
      ∧ strContainsSub u tariffHost ∧ ¬ strContainsSub u archiveHost)
    ∧ (∀ d : Date, 2015 ≤ d.year → d.year < 2021 →
      ∃ u, endpointUrl d = some u ∧ strContainsSub u archiveHost
        ∧ strContainsSub u (mmyyToken d))
    ∧ (∀ d : Date, 2021 ≤ d.year →
      ∃ u, endpointUrl d = some u ∧ strContainsSub u tariffHost
        ∧ strContainsSub u (yyyymmToken d)) := by
  refine ⟨⟨_, rfl, by decide, by decide, by decide⟩,
    ⟨_, rfl, by decide, by decide, by decide⟩, ?_, ?_⟩
  · intro d h1 h2
    obtain ⟨s, hs⟩ := crawl_slugs_total d.year h1 h2
    refine ⟨_, archive_url_shape d s hs h2, ?_, ?_⟩
    · exact strContainsSub_extend_right _ _ _ (strContainsSub_extend_right _ _ _
        (strContainsSub_extend_right _ _ _ (strContainsSub_extend_right _ _ _
          (strContainsSub_extend_right _ _ _ (strContainsSub_extend_right _ _ _
            (by decide))))))
    · exact strContainsSub_middle _ _ _
  · intro d h1
    refine ⟨_, current_url_shape d (by omega), ?_, ?_⟩
    · exact strContainsSub_extend_right _ _ _ (strContainsSub_extend_right _ _ _
        (by decide))
    · exact strContainsSub_middle _ _ _

/-- Witness for C6's amended theorem: both general clauses instantiated. -/
theorem c6_witness :
    (∃ u, endpointUrl ⟨2019, 3, 2⟩ = some u ∧ strContainsSub u archiveHost
      ∧ strContainsSub u (mmyyToken ⟨2019, 3, 2⟩))
    ∧ (∃ u, endpointUrl ⟨2022, 11, 5⟩ = some u ∧ strContainsSub u tariffHost
      ∧ strContainsSub u (yyyymmToken ⟨2022, 11, 5⟩)) :=
  ⟨c6_endpoint_selection.2.2.1 ⟨2019, 3, 2⟩ (by decide) (by decide),
   c6_endpoint_selection.2.2.2 ⟨2022, 11, 5⟩ (by decide)⟩

/-- C7 (confirmed): endpoint selection is a pure total function on its
allowed domain — for every date with year at least 2015 it yields a locator:
the crawl-slug lookup succeeds for each year 2015–2020, and later years take
the non-archive branch. (Purity and absence of I/O hold by construction: the
embedding of the URL computation is a plain function.) -/
theorem c7_endpoint_total (d : Date) (h : 2015 ≤ d.year) :
    ∃ u, endpointUrl d = some u := by
  by_cases h2 : d.year < 2021
  · obtain ⟨s, hs⟩ := crawl_slugs_total d.year h h2
    exact ⟨_, archive_url_shape d s hs h2⟩
  · exact ⟨_, current_url_shape d h2⟩

/-- Witness for C7 at a concrete archive-era date. -/
theorem c7_witness : ∃ u, endpointUrl ⟨2018, 7, 15⟩ = some u :=
  c7_endpoint_total ⟨2018, 7, 15⟩ (by decide)

/-- C8 counterexample: with a rate of 2 stored for `"GBP"` itself, converting
10 GBP returns 10 unchanged, although the claim — quantifying over every
currency with a stored rate — demands `10 / 2 = 5`: the literal reference
code short-circuits before any lookup or division. -/
theorem c8_gbp_rate_ignored :
    dictGet ((dictGet st8.cache exDate).getD []) (pyUpper "GBP") = some ⟨2, 0⟩
    ∧ to_gbp st8 ⟨10, 0⟩ "GBP" exDate (.transportError "x") = (.ok ⟨10, 0⟩, st8)
    ∧ Decimal.divD ⟨10, 0⟩ ⟨2, 0⟩ = some ⟨5, 0⟩
    ∧ (⟨10, 0⟩ : Decimal) ≠ ⟨5, 0⟩ :=
  ⟨rfl, rfl, rfl, by decide⟩

/-- C8 (amended): for every currency other than the literal reference code
`"GBP"` whose uppercased code resolves to a rate, `to_gbp` returns the amount
divided by that rate, the division being the decimal type's context division
(exact whenever the quotient fits the working precision, rounded half-even
beyond it); the literal `"GBP"` bypasses lookup and division entirely. -/
theorem c8_division_applied (st st1 : ConvState) (amount rate q : Decimal)
    (c : String) (d : Date) (fr : FetchResult)
    (hc : c ≠ "GBP")
    (hr : currency_to_gbp_rate st (pyUpper c) d fr = (.ok rate, st1))
    (hq : amount.divD rate = some q) :
    to_gbp st amount c d fr = (.ok q, st1) := by
  unfold to_gbp
  rw [if_neg hc, hr]
  simp only [hq]

/-- Witness for C8's amended theorem: 10 USD at rate 2 converts to 5. -/
theorem c8_witness :
    to_gbp st8b ⟨10, 0⟩ "usd" exDate (.transportError "x") = (.ok ⟨5, 0⟩, st8b) :=
  c8_division_applied st8b st8b ⟨10, 0⟩ ⟨2, 0⟩ ⟨5, 0⟩ "usd" exDate
    (.transportError "x") (by decide) rfl rfl

/-- C9 (confirmed): converting an amount whose currency is the literal
reference code `"GBP"` returns the amount unchanged and leaves the state
untouched, for every cache state, date and pending network answer: no rate
lookup, no fetch and no division happen on this path. -/
theorem c9_gbp_identity (st : ConvState) (amount : Decimal) (d : Date)
    (fr : FetchResult) :
    to_gbp st amount "GBP" d fr = (.ok amount, st) := by
  unfold to_gbp
  rw [if_pos rfl]

/-- C10 (confirmed): loading an existing file that holds only the header row
raises `StopIteration` — the converter's constructor fails instead of
yielding an empty cache — and more generally the first data row after the
header is consumed without validation or insertion: the load result does not
depend on its content at all. -/
theorem c10_header_only_file (p : String) (hdr : List String) :
    read_exchange_rates_file (some p) (some [hdr]) = .error .stopIteration
    ∧ ∀ r1 r2 rest, read_exchange_rates_file (some p) (some (hdr :: r1 :: rest))
        = read_exchange_rates_file (some p) (some (hdr :: r2 :: rest)) :=
  ⟨rfl, fun _ _ _ => rfl⟩

end CurrencyConverter
